import Mathlib

/-!
# Site scoring and ranking pipeline of terralink-ai

Shallow embedding of `src/backend/gee_queries.py` (class `GEEQueryAgent`):
the region registry, the synthetic ("mock") site generator, the backend
sampling path of `query_solar_sites`, and the score ranking.

Modelling conventions:
* Python floats are modelled as exact rationals (`ℚ`); every arithmetic
  operation of the scoring pipeline is exact on the values the program
  manipulates, so the pipeline structure is preserved verbatim.
* The `random` module is modelled by explicit draw parameters:
  `random.random()` draws are rationals in `[0, 1)`, `random.gauss(mu, sigma)`
  is `mu + sigma * z` for an explicit standard-normal draw `z` (this is
  exactly how CPython produces the value from its internal draw), and
  `random.choice` picks by an explicit index draw.  A whole invocation of
  the generator receives a stream `ℕ → SiteDraws`, one record of draws per
  generated site, which is what an explicitly seeded generator provides.
* The Google Earth Engine backend is external to the repository; the outcome
  of the `try` block's backend interaction is an explicit
  `Except String (List Feature)` parameter (the feature list of
  `samples.getInfo()['features']`, or the raised exception's message).
* The `location` field of a site record is a four-decimal fixed-point
  string rendering of `lat`/`lon`; it carries no information beyond the
  `lat`/`lon` fields and is not modelled.
-/

set_option maxRecDepth 100000

namespace TerraLink

/-! ## Python primitives -/

/-- Python `round(x)`: round half to even (banker's rounding) to an integer. -/
def pyRound (x : ℚ) : ℤ :=
  if x - ⌊x⌋ < 1/2 then ⌊x⌋
  else if 1/2 < x - ⌊x⌋ then ⌊x⌋ + 1
  else if ⌊x⌋ % 2 = 0 then ⌊x⌋ else ⌊x⌋ + 1

/-- Python `round(x, k)`: round to `k` decimal digits (half to even). -/
def roundTo (k : ℕ) (x : ℚ) : ℚ := (pyRound (x * 10 ^ k) : ℚ) / 10 ^ k

/-- Python `int(x)`: truncation toward zero. -/
def pyInt (x : ℚ) : ℤ := if 0 ≤ x then ⌊x⌋ else -⌊-x⌋

/-- Python `random.gauss(mu, sigma)`, as `mu + sigma * z` where `z` is the
standard-normal draw the generator produced for this call. -/
def gaussDraw (mu sigma z : ℚ) : ℚ := mu + sigma * z

/-- Python `random.uniform(a, b)`, which CPython computes as
`a + (b - a) * random.random()`; `u` is the `random.random()` draw. -/
def uniformDraw (a b u : ℚ) : ℚ := a + (b - a) * u

/-- Python `region_name or default`-style fallback: `if not region_name:`
replaces `None` and the empty string by the default. -/
def pyOr (s : Option String) (dflt : String) : String :=
  match s with
  | none => dflt
  | some s => if s = "" then dflt else s

/-- The key normalisation `region_name.lower().strip()`. -/
def pyNormKey (s : String) : String := s.toLower.trim

/-! ## Data model -/

/-- A value stored in the auxiliary `metrics` dict of a site record. -/
inductive MetricValue where
  | num (q : ℚ)
  | str (s : String)
deriving DecidableEq

/-- One candidate-site record, as built by `query_solar_sites` /
`_generate_mock_sites`.  The `metrics` dict is kept in insertion order. -/
structure Site where
  id : ℕ
  lat : ℚ
  lon : ℚ
  score : ℤ
  irradiance : ℚ
  slope : ℚ
  metrics : List (String × MetricValue)
deriving DecidableEq

/-- Mock-mode entry of `self.region_bounds` (constructor of `GEEQueryAgent`):
a center point and a degree extent. -/
structure RegionBounds where
  centerLat : ℚ
  centerLon : ℚ
  size : ℚ
deriving DecidableEq

/-- Table `self.region_bounds` in mock-data mode. -/
def region_bounds : List (String × RegionBounds) :=
  [("texas", ⟨31.5, -99.5, 5⟩),
   ("california", ⟨37, -120, 5⟩),
   ("nevada", ⟨38.5, -116.5, 5⟩),
   ("arizona", ⟨33.5, -111.5, 5⟩),
   ("new mexico", ⟨34.5, -106, 5⟩),
   ("colorado", ⟨39, -105.5, 4⟩),
   ("utah", ⟨39.5, -111.5, 4⟩)]

/-- Entry `self.region_bounds['texas']`. -/
def texasBounds : RegionBounds := ⟨31.5, -99.5, 5⟩

/-- Entry of the `region_data` table local to `_generate_mock_sites`. -/
structure RegionInfo where
  centerLat : ℚ
  centerLon : ℚ
  irr_base : ℚ
  slope_avg : ℚ
deriving DecidableEq

/-- The `region_data` table of `_generate_mock_sites`. -/
def region_data : List (String × RegionInfo) :=
  [("texas", ⟨31.5, -99.5, 6.2, 2.0⟩),
   ("california", ⟨37, -120, 6.8, 4.0⟩),
   ("nevada", ⟨38.5, -116.5, 7.0, 3.0⟩),
   ("arizona", ⟨33.5, -111.5, 7.2, 2.5⟩),
   ("new mexico", ⟨34.5, -106, 6.9, 2.2⟩),
   ("colorado", ⟨39, -105.5, 5.8, 5.0⟩),
   ("utah", ⟨39.5, -111.5, 6.5, 4.5⟩)]

/-- Entry `region_data['texas']`. -/
def texasInfo : RegionInfo := ⟨31.5, -99.5, 6.2, 2.0⟩

/-- The draws the `random` module produces for one mock site, in the order
the code consumes them. -/
structure SiteDraws where
  uLat : ℚ            -- random.random() for the latitude offset
  uLon : ℚ            -- random.random() for the longitude offset
  zIrr : ℚ            -- standard draw of random.gauss(0, 0.8)
  zSlope : ℚ          -- standard draw of random.gauss(slope_avg, 2.5)
  zNoise : ℚ          -- standard draw of random.gauss(0, 5)
  uElev : ℚ           -- random.random() inside random.uniform(100, 2000)
  landIdx : Fin 4     -- index drawn by random.choice
  uProt : ℚ           -- random.random() inside random.uniform(5, 50)
deriving DecidableEq

/-- The choice set of `random.choice(['grassland', ...])`. -/
def land_covers : List String := ["grassland", "shrubland", "cropland", "barren"]

/-- Properties of one sampled backend feature (`feature['properties']`);
absent keys make `props.get(...)` return its default. -/
structure FeatureProps where
  constant : Option ℚ           -- the sampled score band
  ssrd : Option ℚ               -- the surface_solar_radiation_downwards band
  slope : Option ℚ
  elevation : Option ℚ
deriving DecidableEq

/-- One feature of `samples.getInfo()['features']`:
`coordinates = [lon, lat]` plus properties. -/
structure Feature where
  lon : ℚ
  lat : ℚ
  props : FeatureProps
deriving DecidableEq

/-! ## Ranking: `sites.sort(key=lambda x: x['score'], reverse=True)`

Python's `list.sort` is a stable sort; with `reverse=True` it orders by
descending key and ties keep their original relative order.  We model it by
`List.mergeSort` with the comparison `b.score ≤ a.score`, which has exactly
this extensional behaviour (descending, stable). -/

/-- Descending-by-score comparison used by the sort. -/
def scoreGE (a b : Site) : Bool := b.score ≤ a.score

/-- Python `sites.sort(key=lambda x: x['score'], reverse=True)`. -/
def sortSites (l : List Site) : List Site := l.mergeSort scoreGE

/-! ## The synthetic path: `_generate_mock_sites` -/

/-- Source line `lat = center[0] + (random.random() - 0.5) * 5` (the box
half-width `5` is a literal in the code, not the per-region `size`). -/
def mockLat (info : RegionInfo) (d : SiteDraws) : ℚ :=
  info.centerLat + (d.uLat - 0.5) * 5

/-- Source line `lon = center[1] + (random.random() - 0.5) * 5`. -/
def mockLon (info : RegionInfo) (d : SiteDraws) : ℚ :=
  info.centerLon + (d.uLon - 0.5) * 5

/-- Source lines `irradiance = base_irradiance + random.gauss(0, 0.8)` then
`irradiance = max(4.5, min(8.0, irradiance))`. -/
def mockIrr (info : RegionInfo) (d : SiteDraws) : ℚ :=
  max 4.5 (min 8.0 (info.irr_base + gaussDraw 0 0.8 d.zIrr))

/-- Source lines `slope = abs(random.gauss(avg_slope, 2.5))` then
`slope = min(15, slope)`. -/
def mockSlope (info : RegionInfo) (d : SiteDraws) : ℚ :=
  min 15 |gaussDraw info.slope_avg 2.5 d.zSlope|

/-- The mock score pipeline:
`score = (irradiance * 5) + (45 - slope)`, `score = max(0, min(100, score))`,
`score += random.gauss(0, 5)`, `score = int(max(50, min(100, score)))`. -/
def mockScore (info : RegionInfo) (d : SiteDraws) : ℤ :=
  pyInt (max 50 (min 100
    (max 0 (min 100 (mockIrr info d * 5 + (45 - mockSlope info d)))
      + gaussDraw 0 5 d.zNoise)))

/-- The body of the `for i in range(num_samples)` loop of
`_generate_mock_sites`: one mock site from the region characteristics, the
loop index and this iteration's draws. -/
def mockSite (info : RegionInfo) (i : ℕ) (d : SiteDraws) : Site :=
  { id := i + 1
    lat := roundTo 4 (mockLat info d)
    lon := roundTo 4 (mockLon info d)
    score := mockScore info d
    irradiance := roundTo 2 (mockIrr info d)
    slope := roundTo 2 (mockSlope info d)
    metrics :=
      [("irradiance", .num (roundTo 2 (mockIrr info d))),
       ("slope", .num (roundTo 2 (mockSlope info d))),
       ("elevation", .num (roundTo 1 (uniformDraw 100 2000 d.uElev))),
       ("land_cover", .str (land_covers.get ⟨d.landIdx.val, d.landIdx.isLt⟩)),
       ("protected_distance", .num (roundTo 1 (uniformDraw 5 50 d.uProt)))] }

/-- Region resolution inside `_generate_mock_sites`:
`region_data.get(region_name.lower().strip(), region_data['texas'])` after
the `if not region_name` fallback to the Texas default. -/
def resolveRegionInfo (region_name : Option String) : RegionInfo :=
  (region_data.lookup (pyNormKey (pyOr region_name "Texas"))).getD texasInfo

/-- The mock site list in generation order (before the final sort). -/
def mockRaw (region_name : Option String) (num_samples : ℕ)
    (draws : ℕ → SiteDraws) : List Site :=
  (List.range num_samples).map fun i => mockSite (resolveRegionInfo region_name) i (draws i)

/-- Function `_generate_mock_sites(region_name, num_samples)`. -/
def generate_mock_sites (region_name : Option String) (num_samples : ℕ)
    (draws : ℕ → SiteDraws) : List Site :=
  sortSites (mockRaw region_name num_samples draws)

/-! ## The backend path and `query_solar_sites` -/

/-- The body of the `for i, feature in enumerate(features)` loop of the
backend path of `query_solar_sites`. -/
def backendSite (i : ℕ) (f : Feature) : Site :=
  let raw_score := f.props.constant.getD 50
  { id := i + 1
    lat := roundTo 4 f.lat
    lon := roundTo 4 f.lon
    score := pyInt (min 100 (max 0 raw_score))
    irradiance := roundTo 2 (f.props.ssrd.getD 6.0 / 3600000 * 24)
    slope := roundTo 2 (f.props.slope.getD 2.0)
    metrics :=
      [("irradiance", .num (roundTo 2 (f.props.ssrd.getD 6.0 / 3600000 * 24))),
       ("slope", .num (roundTo 2 (f.props.slope.getD 2.0))),
       ("elevation", .num (roundTo 1 (f.props.elevation.getD 500)))] }

/-- The backend site list in enumeration order (before the final sort). -/
def backendRaw (features : List Feature) : List Site :=
  features.enum.map fun p => backendSite p.1 p.2

/-- Function `query_solar_sites(region_name, datasets, num_samples)`.
`gee_available` is the capability flag probed in the constructor; `backend`
is the outcome of the backend interaction of the `try` block (only consulted
when `gee_available` is set).  On `Except.error` — any exception raised by
the backend calls — the code falls back to `_generate_mock_sites`. -/
def query_solar_sites (gee_available : Bool) (region_name : Option String)
    (datasets : List String) (num_samples : ℕ)
    (backend : Except String (List Feature)) (draws : ℕ → SiteDraws) : List Site :=
  if gee_available = false then
    generate_mock_sites (some (pyOr region_name "Texas")) num_samples draws
  else
    match backend with
    | .ok features => sortSites (backendRaw features)
    | .error _ => generate_mock_sites (some (pyOr region_name "Texas")) num_samples draws

/-- The site list of `query_solar_sites` in generation order (the list the
final sort is applied to), for stating stability of the ranking. -/
def queryRaw (gee_available : Bool) (region_name : Option String)
    (datasets : List String) (num_samples : ℕ)
    (backend : Except String (List Feature)) (draws : ℕ → SiteDraws) : List Site :=
  if gee_available = false then
    mockRaw (some (pyOr region_name "Texas")) num_samples draws
  else
    match backend with
    | .ok features => backendRaw features
    | .error _ => mockRaw (some (pyOr region_name "Texas")) num_samples draws

/-- Function `get_region_geometry(region_name)` in mock-data mode (the
`gee_available` branch returns the same lookup over the geometry objects). -/
def get_region_geometry (region_name : Option String) : RegionBounds :=
  (region_bounds.lookup (pyNormKey (pyOr region_name "texas"))).getD texasBounds


/-! ## Rounding and truncation lemmas -/

theorem le_pyRound {x : ℚ} {n : ℤ} (h : (n : ℚ) ≤ x) : n ≤ pyRound x := by
  have hf : n ≤ ⌊x⌋ := Int.le_floor.mpr h
  unfold pyRound
  split_ifs <;> omega

theorem pyRound_le {x : ℚ} {n : ℤ} (h : x ≤ (n : ℚ)) : pyRound x ≤ n := by
  have hf : ⌊x⌋ ≤ n := by
    have := Int.floor_le_floor h
    simpa using this
  have key : (1 : ℚ)/2 ≤ x - ⌊x⌋ → ⌊x⌋ + 1 ≤ n := by
    intro hh
    rcases lt_or_eq_of_le hf with hlt | heq
    · omega
    · exfalso
      rw [heq] at hh
      have : (n : ℚ) + 1/2 ≤ x := by
        have := Int.floor_le x
        linarith
      linarith
  unfold pyRound
  split_ifs with h1 h2 h3
  · exact hf
  · exact key (le_of_lt h2)
  · exact hf
  · exact key (by push_neg at h1; exact h1)

theorem le_roundTo {k : ℕ} {x a : ℚ} {n : ℤ} (ha : a * 10 ^ k = (n : ℚ))
    (h : a ≤ x) : a ≤ roundTo k x := by
  have hpow : (0 : ℚ) < 10 ^ k := by positivity
  have h1 : (n : ℚ) ≤ x * 10 ^ k := by
    rw [← ha]
    exact mul_le_mul_of_nonneg_right h (le_of_lt hpow)
  have h2 : (n : ℤ) ≤ pyRound (x * 10 ^ k) := le_pyRound h1
  have h3 : (n : ℚ) ≤ (pyRound (x * 10 ^ k) : ℚ) := by exact_mod_cast h2
  have ha2 : a = (n : ℚ) / 10 ^ k := by
    rw [← ha]
    field_simp
  rw [roundTo, ha2]
  gcongr

theorem roundTo_le {k : ℕ} {x a : ℚ} {n : ℤ} (ha : a * 10 ^ k = (n : ℚ))
    (h : x ≤ a) : roundTo k x ≤ a := by
  have hpow : (0 : ℚ) < 10 ^ k := by positivity
  have h1 : x * 10 ^ k ≤ (n : ℚ) := by
    rw [← ha]
    exact mul_le_mul_of_nonneg_right h (le_of_lt hpow)
  have h2 : pyRound (x * 10 ^ k) ≤ (n : ℤ) := pyRound_le h1
  have h3 : (pyRound (x * 10 ^ k) : ℚ) ≤ (n : ℚ) := by exact_mod_cast h2
  have ha2 : a = (n : ℚ) / 10 ^ k := by
    rw [← ha]
    field_simp
  rw [roundTo, ha2]
  gcongr

theorem pyInt_eq_floor {x : ℚ} (h : 0 ≤ x) : pyInt x = ⌊x⌋ := by
  rw [pyInt, if_pos h]

theorem floor_min_intCast (n : ℤ) (x : ℚ) : ⌊min (n : ℚ) x⌋ = min n ⌊x⌋ := by
  rcases le_total ((n : ℚ)) x with h | h
  · rw [min_eq_left h, Int.floor_intCast, min_eq_left (Int.le_floor.mpr h)]
  · have hfl : ⌊x⌋ ≤ n := by
      have := Int.floor_le_floor h
      simpa using this
    rw [min_eq_right h, min_eq_right hfl]

theorem floor_max_intCast (n : ℤ) (x : ℚ) : ⌊max (n : ℚ) x⌋ = max n ⌊x⌋ := by
  rcases le_total ((n : ℚ)) x with h | h
  · have hfl : n ≤ ⌊x⌋ := Int.le_floor.mpr h
    rw [max_eq_right h, max_eq_right hfl]
  · have hfl : ⌊x⌋ ≤ n := by
      have := Int.floor_le_floor h
      simpa using this
    rw [max_eq_left h, Int.floor_intCast, max_eq_left hfl]

theorem exists_int_scale {q : ℚ} (h : q.den = 1) : ∃ n : ℤ, q = (n : ℚ) :=
  ⟨q.num, ((Rat.den_eq_one_iff q).mp h).symm⟩

/-! ## Sorting lemmas -/

theorem scoreGE_trans : ∀ (a b c : Site), scoreGE a b → scoreGE b c → scoreGE a c := by
  intro a b c hab hbc
  simp only [scoreGE, decide_eq_true_eq] at *
  omega

theorem scoreGE_total : ∀ (a b : Site), scoreGE a b || scoreGE b a := by
  intro a b
  simp only [scoreGE, Bool.or_eq_true, decide_eq_true_eq]
  omega

theorem sortSites_perm (l : List Site) : List.Perm (sortSites l) l :=
  List.mergeSort_perm l scoreGE

theorem length_sortSites (l : List Site) : (sortSites l).length = l.length :=
  (sortSites_perm l).length_eq

theorem mem_sortSites {s : Site} {l : List Site} : s ∈ sortSites l ↔ s ∈ l :=
  (sortSites_perm l).mem_iff

theorem sortSites_sorted (l : List Site) :
    (sortSites l).Pairwise (fun a b => b.score ≤ a.score) := by
  have h := List.sorted_mergeSort scoreGE_trans scoreGE_total l
  exact h.imp fun hab => by simpa [scoreGE] using hab

theorem sortSites_filter_score (l : List Site) (k : ℤ) :
    (sortSites l).filter (fun s => s.score = k) = l.filter (fun s => s.score = k) := by
  have hsub : List.Sublist (l.filter (fun s => s.score = k)) (sortSites l) := by
    apply List.sublist_mergeSort scoreGE_trans scoreGE_total
    · apply List.pairwise_of_forall_mem_list
      intro a ha b hb
      have ha2 := (List.mem_filter.mp ha).2
      have hb2 := (List.mem_filter.mp hb).2
      simp only [decide_eq_true_eq] at ha2 hb2
      simp [scoreGE, ha2, hb2]
    · exact List.filter_sublist l
  have hsub2 : List.Sublist (l.filter (fun s => s.score = k))
      ((sortSites l).filter (fun s => s.score = k)) := by
    have h2 := hsub.filter (fun s => decide (s.score = k))
    simpa [List.filter_filter] using h2
  have hlen : ((sortSites l).filter (fun s => s.score = k)).length =
      (l.filter (fun s => s.score = k)).length :=
    ((sortSites_perm l).filter _).length_eq
  exact (hsub2.eq_of_length hlen.symm).symm

/-! ## Lookup lemmas -/

theorem lookup_mem {β : Type} {l : List (String × β)} {k : String} {v : β}
    (h : l.lookup k = some v) : ∃ p ∈ l, p.2 = v := by
  induction l with
  | nil => simp [List.lookup] at h
  | cons a t ih =>
    rw [List.lookup] at h
    split at h
    · exact ⟨a, List.mem_cons_self a t, Option.some.inj h⟩
    · obtain ⟨p, hp, hv⟩ := ih h
      exact ⟨p, List.mem_cons_of_mem _ hp, hv⟩

theorem resolveRegionInfo_mem (rn : Option String) :
    ∃ p ∈ region_data, resolveRegionInfo rn = p.2 := by
  rw [resolveRegionInfo]
  cases h : region_data.lookup (pyNormKey (pyOr rn "Texas")) with
  | none => exact ⟨("texas", texasInfo), List.mem_cons_self _ _, rfl⟩
  | some v =>
    obtain ⟨p, hp, hv⟩ := lookup_mem h
    exact ⟨p, hp, by simp [hv]⟩

theorem get_region_geometry_mem (rn : Option String) :
    ∃ p ∈ region_bounds, get_region_geometry rn = p.2 := by
  rw [get_region_geometry]
  cases h : region_bounds.lookup (pyNormKey (pyOr rn "texas")) with
  | none => exact ⟨("texas", texasBounds), List.mem_cons_self _ _, rfl⟩
  | some v =>
    obtain ⟨p, hp, hv⟩ := lookup_mem h
    exact ⟨p, hp, by simp [hv]⟩

/-! ## Per-site facts -/

theorem pyInt_clamp_bounds {lo hi : ℤ} {x : ℚ} (h0 : 0 ≤ lo)
    (hlo : (lo : ℚ) ≤ x) (hhi : x ≤ (hi : ℚ)) :
    lo ≤ pyInt x ∧ pyInt x ≤ hi := by
  have h0x : (0 : ℚ) ≤ x := le_trans (by exact_mod_cast h0) hlo
  rw [pyInt_eq_floor h0x]
  refine ⟨Int.le_floor.mpr hlo, ?_⟩
  have := Int.floor_le_floor hhi
  simpa using this

theorem mockIrr_bounds (info : RegionInfo) (d : SiteDraws) :
    (4.5 : ℚ) ≤ mockIrr info d ∧ mockIrr info d ≤ 8 :=
  ⟨le_max_left _ _, max_le (by norm_num) ((min_le_left _ _).trans (by norm_num))⟩

theorem mockSlope_bounds (info : RegionInfo) (d : SiteDraws) :
    (0 : ℚ) ≤ mockSlope info d ∧ mockSlope info d ≤ 15 :=
  ⟨le_min (by norm_num) (abs_nonneg _), min_le_left _ _⟩

theorem mockScore_bounds (info : RegionInfo) (d : SiteDraws) :
    50 ≤ mockScore info d ∧ mockScore info d ≤ 100 := by
  rw [mockScore]
  apply pyInt_clamp_bounds (by norm_num)
  · push_cast
    exact le_max_left _ _
  · push_cast
    exact max_le (by norm_num) (min_le_left _ _)

theorem mockSite_irradiance_bounds (info : RegionInfo) (i : ℕ) (d : SiteDraws) :
    (4.5 : ℚ) ≤ (mockSite info i d).irradiance ∧ (mockSite info i d).irradiance ≤ 8 := by
  have hb := mockIrr_bounds info d
  constructor
  · exact le_roundTo (by norm_num : (4.5 : ℚ) * 10 ^ 2 = ((450 : ℤ) : ℚ)) hb.1
  · exact roundTo_le (by norm_num : (8 : ℚ) * 10 ^ 2 = ((800 : ℤ) : ℚ)) hb.2

theorem mockSite_slope_bounds (info : RegionInfo) (i : ℕ) (d : SiteDraws) :
    (0 : ℚ) ≤ (mockSite info i d).slope ∧ (mockSite info i d).slope ≤ 15 := by
  have hb := mockSlope_bounds info d
  constructor
  · exact le_roundTo (by norm_num : (0 : ℚ) * 10 ^ 2 = ((0 : ℤ) : ℚ)) hb.1
  · exact roundTo_le (by norm_num : (15 : ℚ) * 10 ^ 2 = ((1500 : ℤ) : ℚ)) hb.2

theorem backendSite_score_bounds (i : ℕ) (f : Feature) :
    0 ≤ (backendSite i f).score ∧ (backendSite i f).score ≤ 100 := by
  show 0 ≤ pyInt (min 100 (max 0 (f.props.constant.getD 50))) ∧ _
  apply pyInt_clamp_bounds le_rfl
  · push_cast
    exact le_min (by norm_num) (le_max_left _ _)
  · push_cast
    exact min_le_left _ _

theorem backendSite_slope_nonneg (i : ℕ) (f : Feature)
    (h : 0 ≤ f.props.slope.getD 2.0) : (0 : ℚ) ≤ (backendSite i f).slope :=
  le_roundTo (by norm_num : (0 : ℚ) * 10 ^ 2 = ((0 : ℤ) : ℚ)) h

/-! ## Membership shapes of the two pipeline outputs -/

theorem mem_generate_mock_sites {s : Site} {rn : Option String} {N : ℕ}
    {d : ℕ → SiteDraws} :
    s ∈ generate_mock_sites rn N d ↔
      ∃ i < N, s = mockSite (resolveRegionInfo rn) i (d i) := by
  rw [generate_mock_sites, sortSites, List.mem_mergeSort, mockRaw, List.mem_map]
  constructor
  · rintro ⟨i, hi, rfl⟩
    exact ⟨i, List.mem_range.mp hi, rfl⟩
  · rintro ⟨i, hi, rfl⟩
    exact ⟨i, List.mem_range.mpr hi, rfl⟩

theorem mem_sorted_backendRaw {s : Site} {features : List Feature} :
    s ∈ sortSites (backendRaw features) ↔
      ∃ p ∈ features.enum, s = backendSite p.1 p.2 := by
  rw [sortSites, List.mem_mergeSort, backendRaw, List.mem_map]
  constructor
  · rintro ⟨p, hp, rfl⟩
    exact ⟨p, hp, rfl⟩
  · rintro ⟨p, hp, rfl⟩
    exact ⟨p, hp, rfl⟩

/-! ## Claim theorems -/

/-- Shared concrete draw records for witnesses and counterexamples. -/
def drawsZero : SiteDraws := ⟨1/2, 1/2, 0, 0, 0, 0, 0, 0⟩

def drawsOther : SiteDraws := ⟨1/2, 1/2, 1, 1, 1, 1, 1, 1⟩

/-- The synthetic score exactly as the specification words it
(`clamp(round(base + noise), 50, 100)` with `round` — Python banker's
rounding): the refinement comparison definition for claim C1. -/
def synthScoreSpec (irr slope noise : ℚ) : ℤ :=
  max 50 (min 100 (pyRound (irr * 5 + (45 - slope) + noise)))

/-- C1 (amended): for every synthetic site the raw score is
`irradiance * 5 + (45 - slope)` over the clamped draws; it is clamped to
`[0, 100]` (vacuously, given the irradiance and slope clamps), the
zero-mean noise draw is added, and the final score is
`clamp(trunc(base + noise), 50, 100)` where `trunc` is Python `int()`
truncation (equal to floor here), not `round()`. -/
theorem synth_score_is_trunc_clamp (info : RegionInfo) (i : ℕ) (d : SiteDraws) :
    (mockSite info i d).score =
      max 50 (min 100 ⌊mockIrr info d * 5 + (45 - mockSlope info d) + 5 * d.zNoise⌋) := by
  show mockScore info d = _
  have hirr := mockIrr_bounds info d
  have hsl := mockSlope_bounds info d
  rw [mockScore]
  have hbase0 : (0 : ℚ) ≤ mockIrr info d * 5 + (45 - mockSlope info d) := by
    have h1 := hirr.1
    have h2 := hsl.2
    linarith
  have hbase100 : mockIrr info d * 5 + (45 - mockSlope info d) ≤ 100 := by
    have h1 := hirr.2
    have h2 := hsl.1
    linarith
  rw [min_eq_right hbase100, max_eq_right hbase0]
  have hg : gaussDraw 0 5 d.zNoise = 5 * d.zNoise := by
    rw [gaussDraw]
    ring
  rw [hg]
  have harg : (0 : ℚ) ≤ max 50 (min 100
      (mockIrr info d * 5 + (45 - mockSlope info d) + 5 * d.zNoise)) := by
    have := le_max_left (50 : ℚ)
      (min 100 (mockIrr info d * 5 + (45 - mockSlope info d) + 5 * d.zNoise))
    linarith
  rw [pyInt_eq_floor harg]
  have c50 : (50 : ℚ) = ((50 : ℤ) : ℚ) := by norm_num
  have c100 : (100 : ℚ) = ((100 : ℤ) : ℚ) := by norm_num
  rw [c50, c100, floor_max_intCast, floor_min_intCast]

/-- C1 counterexample: for the Texas synthetic site drawn with
`zIrr = zSlope = 0` and noise draw `0.14` (noise `0.7`), the clamped
irradiance is `6.2` and the slope `2`, the noisy raw score is `74.7`, the
code stores `int(74.7) = 74`, but the spec formula `clamp(round(raw), 50,
100)` gives `75`. -/
theorem synth_score_round_counterexample :
    (generate_mock_sites (some "Texas") 1 fun _ => SiteDraws.mk (1/2) (1/2) 0 0 (7/50) 0 0 0).map
        (fun s => (s.irradiance, s.slope, s.score)) = [(31/5, 2, 74)]
    ∧ gaussDraw 0 5 (7/50) = 7/10
    ∧ synthScoreSpec (31/5) 2 (7/10) = 75
    ∧ ¬ ((74 : ℤ) = 75) := by
  with_unfolding_all decide

/-- C4 (amended): the synthetic path returns exactly `N` records; the `id`
fields are assigned `1..N` in generation order, so after the score sort the
returned `id`s are a permutation of `1..N` (not necessarily increasing);
`N = 0` yields the empty list and no error. -/
theorem mock_count_and_id_range (rn : Option String) (N : ℕ) (d : ℕ → SiteDraws) :
    (generate_mock_sites rn N d).length = N
    ∧ List.Perm ((generate_mock_sites rn N d).map Site.id) ((List.range N).map (· + 1))
    ∧ (N = 0 → generate_mock_sites rn N d = []) := by
  refine ⟨?_, ?_, ?_⟩
  · rw [generate_mock_sites, length_sortSites, mockRaw, List.length_map, List.length_range]
  · have hperm := (sortSites_perm (mockRaw rn N d)).map Site.id
    refine hperm.trans ?_
    rw [mockRaw, List.map_map]
    have : ((fun s => Site.id s) ∘ fun i => mockSite (resolveRegionInfo rn) i (d i))
        = fun i : ℕ => i + 1 := rfl
    rw [this]
  · intro h
    subst h
    simp [generate_mock_sites, mockRaw, sortSites]

theorem mock_count_and_id_range_witness :
    (generate_mock_sites (some "Texas") 2 fun _ => drawsZero).length = 2
    ∧ List.Perm ((generate_mock_sites (some "Texas") 2 fun _ => drawsZero).map Site.id)
        ((List.range 2).map (· + 1))
    ∧ (2 = 0 → generate_mock_sites (some "Texas") 2 (fun _ => drawsZero) = []) :=
  mock_count_and_id_range (some "Texas") 2 fun _ => drawsZero

/-- C4 counterexample: with a low-noise first draw and a high-noise second
draw the two Texas mock sites come back score-sorted as `id = 2` before
`id = 1`, so the returned `id` order is not `1, 2`. -/
theorem mock_ids_not_increasing_counterexample :
    (generate_mock_sites (some "Texas") 2 fun i =>
        if i = 0 then SiteDraws.mk (1/2) (1/2) 0 0 (-10) 0 0 0
        else SiteDraws.mk (1/2) (1/2) 0 0 10 0 0 0).map Site.id = [2, 1]
    ∧ ¬ ([2, 1] = ((List.range 2).map fun i : ℕ => i + 1)) := by
  with_unfolding_all decide

/-- C5: when the backend interaction raises (`Except.error`),
`query_solar_sites` returns the full synthetic result for the same region
request — exactly the `_generate_mock_sites` output, of exactly the
requested size; no error propagates (the function is total). -/
theorem backend_error_full_mock_fallback (rn : Option String) (ds : List String)
    (N : ℕ) (msg : String) (d : ℕ → SiteDraws) :
    query_solar_sites true rn ds N (.error msg) d
      = generate_mock_sites (some (pyOr rn "Texas")) N d
    ∧ (query_solar_sites true rn ds N (.error msg) d).length = N := by
  have h : query_solar_sites true rn ds N (.error msg) d
      = generate_mock_sites (some (pyOr rn "Texas")) N d := rfl
  refine ⟨h, ?_⟩
  rw [h, generate_mock_sites, length_sortSites, mockRaw, List.length_map, List.length_range]

/-- C9: the synthetic path is deterministic in its random source: two
invocations that agree on region, requested count and the draws actually
consumed (the first `N` records of the stream) return identical site lists,
in particular identical score sets. -/
theorem mock_reproducible (rn : Option String) (N : ℕ) (d₁ d₂ : ℕ → SiteDraws)
    (h : ∀ i < N, d₁ i = d₂ i) :
    generate_mock_sites rn N d₁ = generate_mock_sites rn N d₂
    ∧ (generate_mock_sites rn N d₁).map Site.score
        = (generate_mock_sites rn N d₂).map Site.score := by
  have hraw : mockRaw rn N d₁ = mockRaw rn N d₂ := by
    rw [mockRaw, mockRaw]
    apply List.map_congr_left
    intro i hi
    rw [h i (List.mem_range.mp hi)]
  have heq : generate_mock_sites rn N d₁ = generate_mock_sites rn N d₂ := by
    rw [generate_mock_sites, generate_mock_sites, hraw]
  exact ⟨heq, by rw [heq]⟩

theorem mock_reproducible_witness :
    generate_mock_sites (some "Texas") 1 (fun _ => drawsZero)
      = generate_mock_sites (some "Texas") 1 (fun i => if i = 0 then drawsZero else drawsOther)
    ∧ (generate_mock_sites (some "Texas") 1 (fun _ => drawsZero)).map Site.score
      = (generate_mock_sites (some "Texas") 1
          (fun i => if i = 0 then drawsZero else drawsOther)).map Site.score :=
  mock_reproducible (some "Texas") 1 _ _ (by
    intro i hi
    have h0 : i = 0 := by omega
    subst h0
    rfl)

theorem snd_mem_of_mem_enum {α : Type} {l : List α} {p : ℕ × α}
    (h : p ∈ l.enum) : p.2 ∈ l := by
  have h2 := List.mem_enum_iff_getElem?.mp h
  obtain ⟨hlt, hget⟩ := List.getElem?_eq_some_iff.mp h2
  exact hget ▸ List.getElem_mem hlt

/-- The feature list the backend interaction produced (empty if it raised). -/
def backendFeatures : Except String (List Feature) → List Feature
  | .ok fs => fs
  | .error _ => []

/-- Shared invariant of every synthetic record. -/
theorem mock_sites_invariant (rn : Option String) (N : ℕ) (d : ℕ → SiteDraws) :
    ∀ s ∈ generate_mock_sites rn N d,
      50 ≤ s.score ∧ s.score ≤ 100 ∧ (0 : ℚ) ≤ s.slope ∧ s.slope ≤ 15
      ∧ (4.5 : ℚ) ≤ s.irradiance ∧ s.irradiance ≤ 8 := by
  intro s hs
  obtain ⟨i, _, rfl⟩ := mem_generate_mock_sites.mp hs
  refine ⟨(mockScore_bounds _ _).1, (mockScore_bounds _ _).2, ?_, ?_, ?_, ?_⟩
  · exact (mockSite_slope_bounds _ _ _).1
  · exact (mockSite_slope_bounds _ _ _).2
  · exact (mockSite_irradiance_bounds _ _ _).1
  · exact (mockSite_irradiance_bounds _ _ _).2

/-- C2: every record either path of `query_solar_sites` returns has an
integer `score` field (`ℤ` by construction, produced by Python `int()`)
with `0 ≤ score ≤ 100`, and `slope ≥ 0`.  On the backend path the slope
field is the rounded backend slope reading (default `2.0` when absent), so
the slope invariant is stated under the terrain-slope operator's contract
that its readings are nonnegative; the synthetic path needs no hypothesis. -/
theorem query_score_slope_invariant (gee : Bool) (rn : Option String)
    (ds : List String) (N : ℕ) (backend : Except String (List Feature))
    (d : ℕ → SiteDraws)
    (hb : ∀ f ∈ backendFeatures backend, 0 ≤ f.props.slope.getD 2.0) :
    ∀ s ∈ query_solar_sites gee rn ds N backend d,
      0 ≤ s.score ∧ s.score ≤ 100 ∧ (0 : ℚ) ≤ s.slope := by
  intro s hs
  unfold query_solar_sites at hs
  by_cases hg : gee = false
  · rw [if_pos hg] at hs
    have h := mock_sites_invariant _ _ _ s hs
    exact ⟨by omega, h.2.1, h.2.2.1⟩
  · rw [if_neg hg] at hs
    cases backend with
    | error e =>
      have h := mock_sites_invariant _ _ _ s hs
      exact ⟨by omega, h.2.1, h.2.2.1⟩
    | ok fs =>
      obtain ⟨p, hp, rfl⟩ := mem_sorted_backendRaw.mp hs
      have hmem : p.2 ∈ fs := snd_mem_of_mem_enum hp
      have hslope := hb p.2 hmem
      exact ⟨(backendSite_score_bounds _ _).1, (backendSite_score_bounds _ _).2,
        backendSite_slope_nonneg _ _ hslope⟩

def featureW : Feature := ⟨-100, 31, ⟨some 87, some 21600000, some 3, some 500⟩⟩

theorem query_score_slope_invariant_witness :
    0 ≤ (backendSite 0 featureW).score ∧ (backendSite 0 featureW).score ≤ 100
    ∧ (0 : ℚ) ≤ (backendSite 0 featureW).slope :=
  query_score_slope_invariant true (some "Texas") [] 0 (.ok [featureW])
    (fun _ => drawsZero) (by with_unfolding_all decide)
    (backendSite 0 featureW) (by with_unfolding_all decide)

/-- Both paths of `query_solar_sites` are the final sort applied to the
generation-ordered list `queryRaw`. -/
theorem query_eq_sort_queryRaw (gee : Bool) (rn : Option String)
    (ds : List String) (N : ℕ) (backend : Except String (List Feature))
    (d : ℕ → SiteDraws) :
    query_solar_sites gee rn ds N backend d
      = sortSites (queryRaw gee rn ds N backend d) := by
  unfold query_solar_sites queryRaw
  by_cases hg : gee = false
  · rw [if_pos hg, if_pos hg, generate_mock_sites]
  · rw [if_neg hg, if_neg hg]
    cases backend with
    | ok fs => rfl
    | error e => rw [generate_mock_sites]

/-- C3: on both paths the returned list is sorted non-increasingly by
`score`, and the sort is stable: for every score value the records carrying
it appear in the same relative order as in the generation-ordered list
`queryRaw` (so equal-score sites keep the order in which they were
generated). -/
theorem query_sorted_descending_stable (gee : Bool) (rn : Option String)
    (ds : List String) (N : ℕ) (backend : Except String (List Feature))
    (d : ℕ → SiteDraws) :
    (query_solar_sites gee rn ds N backend d).Pairwise (fun a b => b.score ≤ a.score)
    ∧ ∀ k : ℤ,
        (query_solar_sites gee rn ds N backend d).filter (fun s => s.score = k)
          = (queryRaw gee rn ds N backend d).filter (fun s => s.score = k) := by
  rw [query_eq_sort_queryRaw]
  exact ⟨sortSites_sorted _, fun k => sortSites_filter_score _ k⟩

/-- C6: every synthetic record is `mockSite` applied to the resolved
region's characteristics and its own draws — irradiance a clamped normal
draw around the region's base irradiance, slope the clamped absolute normal
draw around the region's average slope — and consequently has
`irradiance ∈ [4.5, 8.0]`, `slope ∈ [0, 15]` and `score ∈ [50, 100]`. -/
theorem mock_site_field_ranges (rn : Option String) (N : ℕ) (d : ℕ → SiteDraws) :
    ∀ s ∈ generate_mock_sites rn N d,
      (∃ i < N, s = mockSite (resolveRegionInfo rn) i (d i))
      ∧ (4.5 : ℚ) ≤ s.irradiance ∧ s.irradiance ≤ 8
      ∧ (0 : ℚ) ≤ s.slope ∧ s.slope ≤ 15
      ∧ 50 ≤ s.score ∧ s.score ≤ 100 := by
  intro s hs
  have h := mock_sites_invariant rn N d s hs
  exact ⟨mem_generate_mock_sites.mp hs, h.2.2.2.2.1, h.2.2.2.2.2,
    h.2.2.1, h.2.2.2.1, h.1, h.2.1⟩

theorem mock_site_field_ranges_witness :
    (4.5 : ℚ) ≤ (mockSite (resolveRegionInfo (some "Texas")) 0 drawsZero).irradiance
    ∧ (mockSite (resolveRegionInfo (some "Texas")) 0 drawsZero).irradiance ≤ 8
    ∧ (0 : ℚ) ≤ (mockSite (resolveRegionInfo (some "Texas")) 0 drawsZero).slope
    ∧ (mockSite (resolveRegionInfo (some "Texas")) 0 drawsZero).slope ≤ 15
    ∧ 50 ≤ (mockSite (resolveRegionInfo (some "Texas")) 0 drawsZero).score
    ∧ (mockSite (resolveRegionInfo (some "Texas")) 0 drawsZero).score ≤ 100 := by
  have h := mock_site_field_ranges (some "Texas") 1 (fun _ => drawsZero)
    (mockSite (resolveRegionInfo (some "Texas")) 0 drawsZero)
    (by with_unfolding_all decide)
  exact h.2

/-- C7: region resolution normalises with `.lower().strip()`, always
returns a descriptor from the registry, falls back to the Texas descriptor
whenever the normalised key is unknown (including empty and absent input),
and the synthetic pipeline still produces the requested number of valid
records for any region input. -/
theorem region_resolution_never_fails (rn : Option String) (N : ℕ) (d : ℕ → SiteDraws) :
    (∃ p ∈ region_bounds, get_region_geometry rn = p.2)
    ∧ (region_bounds.lookup (pyNormKey (pyOr rn "texas")) = none →
        get_region_geometry rn = texasBounds)
    ∧ (generate_mock_sites rn N d).length = N
    ∧ ∀ s ∈ generate_mock_sites rn N d,
        50 ≤ s.score ∧ s.score ≤ 100 ∧ (0 : ℚ) ≤ s.slope := by
  refine ⟨get_region_geometry_mem rn, ?_, ?_, ?_⟩
  · intro h
    rw [get_region_geometry, h]
    rfl
  · rw [generate_mock_sites, length_sortSites, mockRaw, List.length_map, List.length_range]
  · intro s hs
    have h := mock_sites_invariant rn N d s hs
    exact ⟨h.1, h.2.1, h.2.2.1⟩

theorem region_resolution_never_fails_witness :
    get_region_geometry (some "Unknownistan") = texasBounds
    ∧ (generate_mock_sites (some "Unknownistan") 10 fun _ => drawsZero).length = 10 := by
  have h := region_resolution_never_fails (some "Unknownistan") 10 fun _ => drawsZero
  exact ⟨h.2.1 (by with_unfolding_all decide), h.2.2.1⟩

/-- C8 (amended): every synthetic point lies within `center ± 5/2` in both
latitude and longitude for every region — the half-width `5/2` comes from
the literal `5` in `(random.random() - 0.5) * 5`, which the generator uses
for all regions; the per-region `size` of the fallback descriptor (`4` for
Colorado and Utah) is not consulted. -/
theorem mock_points_within_fixed_box (rn : Option String) (N : ℕ)
    (d : ℕ → SiteDraws)
    (hd : ∀ i, 0 ≤ (d i).uLat ∧ (d i).uLat < 1 ∧ 0 ≤ (d i).uLon ∧ (d i).uLon < 1) :
    ∀ s ∈ generate_mock_sites rn N d,
      (resolveRegionInfo rn).centerLat - 5/2 ≤ s.lat
      ∧ s.lat ≤ (resolveRegionInfo rn).centerLat + 5/2
      ∧ (resolveRegionInfo rn).centerLon - 5/2 ≤ s.lon
      ∧ s.lon ≤ (resolveRegionInfo rn).centerLon + 5/2 := by
  obtain ⟨p, hp, hpi⟩ := resolveRegionInfo_mem rn
  have hall : ∀ q ∈ region_data,
      ((q.2.centerLat - 5/2) * 10 ^ 4).den = 1
      ∧ ((q.2.centerLat + 5/2) * 10 ^ 4).den = 1
      ∧ ((q.2.centerLon - 5/2) * 10 ^ 4).den = 1
      ∧ ((q.2.centerLon + 5/2) * 10 ^ 4).den = 1 := by
    with_unfolding_all decide
  have hden := hall p hp
  obtain ⟨n1, hn1⟩ := exists_int_scale hden.1
  obtain ⟨n2, hn2⟩ := exists_int_scale hden.2.1
  obtain ⟨n3, hn3⟩ := exists_int_scale hden.2.2.1
  obtain ⟨n4, hn4⟩ := exists_int_scale hden.2.2.2
  intro s hs
  obtain ⟨i, hiN, rfl⟩ := mem_generate_mock_sites.mp hs
  obtain ⟨hu1, hu2, hu3, hu4⟩ := hd i
  rw [hpi]
  have hlat1 : p.2.centerLat - 5/2 ≤ mockLat p.2 (d i) := by
    rw [mockLat]
    nlinarith
  have hlat2 : mockLat p.2 (d i) ≤ p.2.centerLat + 5/2 := by
    rw [mockLat]
    nlinarith
  have hlon1 : p.2.centerLon - 5/2 ≤ mockLon p.2 (d i) := by
    rw [mockLon]
    nlinarith
  have hlon2 : mockLon p.2 (d i) ≤ p.2.centerLon + 5/2 := by
    rw [mockLon]
    nlinarith
  have hs_lat : (mockSite p.2 i (d i)).lat = roundTo 4 (mockLat p.2 (d i)) := rfl
  have hs_lon : (mockSite p.2 i (d i)).lon = roundTo 4 (mockLon p.2 (d i)) := rfl
  rw [hs_lat, hs_lon]
  exact ⟨le_roundTo hn1 hlat1, roundTo_le hn2 hlat2, le_roundTo hn3 hlon1, roundTo_le hn4 hlon2⟩

theorem mock_points_within_fixed_box_witness :
    (resolveRegionInfo (some "Texas")).centerLat - 5/2
        ≤ (mockSite (resolveRegionInfo (some "Texas")) 0 drawsZero).lat
    ∧ (mockSite (resolveRegionInfo (some "Texas")) 0 drawsZero).lat
        ≤ (resolveRegionInfo (some "Texas")).centerLat + 5/2
    ∧ (resolveRegionInfo (some "Texas")).centerLon - 5/2
        ≤ (mockSite (resolveRegionInfo (some "Texas")) 0 drawsZero).lon
    ∧ (mockSite (resolveRegionInfo (some "Texas")) 0 drawsZero).lon
        ≤ (resolveRegionInfo (some "Texas")).centerLon + 5/2 :=
  mock_points_within_fixed_box (some "Texas") 1 (fun _ => drawsZero)
    (fun _ => (by with_unfolding_all decide :
      (0 : ℚ) ≤ drawsZero.uLat ∧ drawsZero.uLat < 1
      ∧ (0 : ℚ) ≤ drawsZero.uLon ∧ drawsZero.uLon < 1))
    (mockSite (resolveRegionInfo (some "Texas")) 0 drawsZero)
    (by with_unfolding_all decide)

/-- C8 counterexample: for Colorado (configured extent `4`, so the claimed
box is `center ± 2`), the latitude draw `0.99` produces the site latitude
`41.45 = 39 + 2.45`, outside `39 ± 2` — the generator uses the literal
5-degree box for every region. -/
theorem mock_box_ignores_region_extent_counterexample :
    (generate_mock_sites (some "Colorado") 1 fun _ =>
        SiteDraws.mk (99/100) (1/2) 0 0 0 0 0 0).map Site.lat = [829/20]
    ∧ region_bounds.lookup "colorado" = some (RegionBounds.mk 39 (-105.5) 4)
    ∧ ¬ ((829/20 : ℚ) ≤ 39 + 4/2) := by
  with_unfolding_all decide

/-- C10: on both paths the `metrics` dict of every returned record carries
keys `irradiance` and `slope` whose values duplicate the record's
top-level `irradiance` and `slope` fields. -/
theorem metrics_mirror_top_level (gee : Bool) (rn : Option String)
    (ds : List String) (N : ℕ) (backend : Except String (List Feature))
    (d : ℕ → SiteDraws) :
    ∀ s ∈ query_solar_sites gee rn ds N backend d,
      s.metrics.lookup "irradiance" = some (.num s.irradiance)
      ∧ s.metrics.lookup "slope" = some (.num s.slope) := by
  intro s hs
  unfold query_solar_sites at hs
  by_cases hg : gee = false
  · rw [if_pos hg] at hs
    obtain ⟨i, _, rfl⟩ := mem_generate_mock_sites.mp hs
    exact ⟨rfl, rfl⟩
  · rw [if_neg hg] at hs
    cases backend with
    | error e =>
      obtain ⟨i, _, rfl⟩ := mem_generate_mock_sites.mp hs
      exact ⟨rfl, rfl⟩
    | ok fs =>
      obtain ⟨p, hp, rfl⟩ := mem_sorted_backendRaw.mp hs
      exact ⟨rfl, rfl⟩

theorem metrics_mirror_top_level_witness :
    (mockSite (resolveRegionInfo (some "Texas")) 0 drawsZero).metrics.lookup "irradiance"
      = some (.num (mockSite (resolveRegionInfo (some "Texas")) 0 drawsZero).irradiance)
    ∧ (mockSite (resolveRegionInfo (some "Texas")) 0 drawsZero).metrics.lookup "slope"
      = some (.num (mockSite (resolveRegionInfo (some "Texas")) 0 drawsZero).slope) :=
  metrics_mirror_top_level false (some "Texas") [] 1 (.error "") (fun _ => drawsZero)
    (mockSite (resolveRegionInfo (some "Texas")) 0 drawsZero)
    (by with_unfolding_all decide)

end TerraLink
